import Mathlib

/-!
Verification of the MITRE ATT&CK ETL connector (`src/etl_connector.py`).

The script is a linear extract-transform-load pipeline:
`load_environment` reads `MONGO_URI` / `MONGO_DB`, `connect_to_mongodb`
opens the store and returns the fixed collection `mitre_attack_raw`,
`connect_to_taxii_server` retries a feed connection up to 3 times with a
5-second sleep between attempts, `get_enterprise_collection` picks the
first sub-collection whose title contains `"Enterprise ATT&CK"`,
`fetch_and_transform_data` filters fetched objects by a type allowlist and
projects each kept object into a normalized record, and `load_to_mongodb`
deletes the target collection's prior contents and bulk-inserts the batch.

The embedding below mirrors each function of the source.  External effects
(environment lookup, network reachability, exceptions raised by the
drivers, wall-clock readings, keyboard interruption) are supplied as
explicit oracle parameters; log output is modelled as a list of structured
`LogEvent`s; `sys.exit(n)` is modelled as an `Except Nat` error value that
propagates to `main`'s `finally` block.
-/

/-- A STIX object as returned by the TAXII feed.  In Python this is a
dict; `obj.get(k)` yields `None` when the key is absent, which is the
`none` of the corresponding `Option` field here.  Nested reference /
phase records are opaque payloads, modelled as strings. -/
structure StixObject where
  id : Option String
  type : Option String
  name : Option String
  description : Option String
  created : Option String
  modified : Option String
  labels : Option (List String)
  external_references : Option (List String)
  kill_chain_phases : Option (List String)
  deriving DecidableEq

/-- The normalized record built for each kept object
(`transformed_obj` in `fetch_and_transform_data`).  `ingested_at` is the
wall-clock reading (`datetime.utcnow()`) at transformation time, modelled
as a natural-number timestamp. -/
structure TransformedObj where
  mitre_id : Option String
  name : String
  description : String
  object_type : Option String
  created : Option String
  modified : Option String
  labels : List String
  external_references : List String
  kill_chain_phases : List String
  ingested_at : Nat
  source : String
  raw_object : StixObject
  deriving DecidableEq

/-- `target_types = ["attack-pattern", "intrusion-set", "malware"]`. -/
def target_types : List String := ["attack-pattern", "intrusion-set", "malware"]

/-- The filter test `obj.get("type") in target_types`: a missing `type`
key gives Python `None`, which is not a member of a list of strings. -/
def keepObj (obj : StixObject) : Bool :=
  match obj.type with
  | some t => target_types.contains t
  | none => false

/-- Building `transformed_obj` from a kept object; `now` is the value the
`datetime.utcnow()` call returns for this object. -/
def transformObj (now : Nat) (obj : StixObject) : TransformedObj :=
  { mitre_id := obj.id
    name := obj.name.getD "Unknown"
    description := obj.description.getD ""
    object_type := obj.type
    created := obj.created
    modified := obj.modified
    labels := obj.labels.getD []
    external_references := obj.external_references.getD []
    kill_chain_phases := obj.kill_chain_phases.getD []
    ingested_at := now
    source := "MITRE ATT&CK TAXII Server"
    raw_object := obj }

/-- The `for obj in objects` loop of `fetch_and_transform_data`:
allowlisted objects are appended in traversal order, others are skipped.
`clock k` is what the `k`-th `datetime.utcnow()` call of the loop returns
(the call happens only for kept objects), so `k` counts kept objects so
far. -/
def transformLoop (clock : Nat → Nat) (k : Nat) : List StixObject → List TransformedObj
  | [] => []
  | obj :: rest =>
    if keepObj obj then
      transformObj (clock k) obj :: transformLoop clock (k + 1) rest
    else
      transformLoop clock k rest

/-- The kept objects of the loop are exactly the filter by `keepObj`,
recovered through the `raw_object` field. -/
lemma transformLoop_map_raw (clock : Nat → Nat) (objs : List StixObject) :
    ∀ k, (transformLoop clock k objs).map TransformedObj.raw_object = objs.filter keepObj := by
  induction objs with
  | nil => intro k; rfl
  | cons o rest ih =>
    intro k
    by_cases h : keepObj o
    · simp [transformLoop, h, List.filter_cons, transformObj, ih]
    · simp [transformLoop, h, List.filter_cons, ih]

lemma transformLoop_length (clock : Nat → Nat) (objs : List StixObject) (k : Nat) :
    (transformLoop clock k objs).length = (objs.filter keepObj).length := by
  have h := transformLoop_map_raw clock objs k
  calc (transformLoop clock k objs).length
      = ((transformLoop clock k objs).map TransformedObj.raw_object).length := by
        rw [List.length_map]
    _ = (objs.filter keepObj).length := by rw [h]

lemma mapIdx_congr_fn {α β : Type} (f g : Nat → α → β) (h : ∀ i a, f i a = g i a) :
    ∀ l : List α, l.mapIdx f = l.mapIdx g := by
  intro l
  induction l generalizing f g with
  | nil => rfl
  | cons a as ih =>
    rw [List.mapIdx_cons, List.mapIdx_cons, h 0 a]
    rw [ih (fun i => f (i + 1)) (fun i => g (i + 1)) (fun i b => h (i + 1) b)]

/-- The loop is the indexed map of the projection over the filtered list:
the `i`-th produced record is built from the `i`-th kept object with the
`i`-th clock reading. -/
lemma transformLoop_eq_mapIdx (clock : Nat → Nat) (objs : List StixObject) :
    ∀ k, transformLoop clock k objs =
      (objs.filter keepObj).mapIdx (fun i o => transformObj (clock (k + i)) o) := by
  induction objs with
  | nil => intro k; rfl
  | cons o rest ih =>
    intro k
    by_cases h : keepObj o
    · simp only [transformLoop, h, if_true, List.filter_cons, List.mapIdx_cons, Nat.add_zero]
      rw [ih (k + 1)]
      exact congrArg _ (mapIdx_congr_fn _ _ (fun i a => by rw [Nat.add_assoc, Nat.add_comm 1 i]) _)
    · simp only [transformLoop, h, if_false, List.filter_cons, Bool.false_eq_true]
      exact ih k

/-- C1: The transform retains exactly the allowlisted objects (witnessed by
`raw_object`), its output length never exceeds the input length, and the
lengths agree exactly when every fetched object passes the allowlist
test. -/
theorem transform_filters_allowlist (clock : Nat → Nat) (objs : List StixObject) :
    (transformLoop clock 0 objs).map TransformedObj.raw_object = objs.filter keepObj ∧
    (transformLoop clock 0 objs).length ≤ objs.length ∧
    ((transformLoop clock 0 objs).length = objs.length ↔ ∀ o ∈ objs, keepObj o = true) := by
  refine ⟨transformLoop_map_raw clock objs 0, ?_, ?_⟩
  · rw [transformLoop_length]
    exact List.length_filter_le keepObj objs
  · rw [transformLoop_length]
    exact List.filter_length_eq_length

/-- C9: The transform preserves order and multiplicity: its output is the
indexed map of the per-object projection over the allowlist filter of the
input, so the `i`-th record is built from the `i`-th kept object (with the
`i`-th wall-clock reading), each kept object yields exactly one record,
and duplicate ids are not merged. -/
theorem transform_preserves_order (clock : Nat → Nat) (objs : List StixObject) :
    transformLoop clock 0 objs =
      (objs.filter keepObj).mapIdx (fun i o => transformObj (clock i) o) := by
  have h := transformLoop_eq_mapIdx clock objs 0
  simpa using h

/-!
Log output is modelled as a trace of structured events.  Log lines whose
content plays no role in any stated property (e.g. the object-type
breakdown loop, durations) are represented by their surrounding events or
omitted; lines whose content matters (the names in the missing-variable
error, the available collection titles, warnings, the connection-close
message) carry that content.
-/

/-- One logged/printed line of the script, abstracted to the data the
properties depend on. -/
inductive LogEvent where
  | missingEnvVars (names : List String)
  | mongoConnectAttempt
  | mongoConnected
  | mongoConnectFailed
  | taxiiAttempt (n : Nat)
  | taxiiConnected
  | taxiiRetrySleep (seconds : Nat)
  | taxiiFailedFinal
  | collectionsAccessError
  | enterpriseNotFound
  | availableTitle (t : List Char)
  | foundCollection (t : List Char)
  | fetching
  | noDataReceived
  | retrievedCount (n : Nat)
  | transformedCount (n : Nat)
  | fetchError
  | noDataWarning
  | loadingCount (n : Nat)
  | clearingCount (n : Nat)
  | insertedCount (n : Nat)
  | finalCount (n : Nat)
  | noDocsInserted
  | summaryPrinted
  | insertFailed
  | pipelineFailedLoading
  | interrupted
  | unexpectedError
  | closeClient
  deriving DecidableEq

/-- The response `enterprise_collection.get_objects()` produced, as seen
by the two guards `not response` (falsy) and `"objects" not in response`
(truthy dict without the key). -/
inductive FetchResponse where
  | emptyResponse
  | missingObjectsField
  | objects (objs : List StixObject)
  deriving DecidableEq

/-- Whether the `try` body of `fetch_and_transform_data` raises somewhere
(network error in `get_objects()`, malformed entry in the loop, ...) or
yields a response. -/
inductive FetchOutcome where
  | raises
  | response (r : FetchResponse)
  deriving DecidableEq

/-- `fetch_and_transform_data`: the fetch guards, the filter/projection
loop, and the `except` clause that converts any exception into an empty
result list. -/
def fetch_and_transform_data (clock : Nat → Nat) (outcome : FetchOutcome) :
    List LogEvent × List TransformedObj :=
  match outcome with
  | .raises => ([.fetching, .fetchError], [])
  | .response .emptyResponse => ([.fetching, .noDataReceived], [])
  | .response .missingObjectsField => ([.fetching, .noDataReceived], [])
  | .response (.objects objs) =>
    let transformed := transformLoop clock 0 objs
    ([.fetching, .retrievedCount objs.length, .transformedCount transformed.length],
     transformed)

/-- A document of the target collection: either a normalized record
written by this pipeline or an unrelated pre-existing document. -/
inductive MongoDoc where
  | record (r : TransformedObj)
  | other (payload : String)
  deriving DecidableEq

/-- Failure oracle for the `try` body of `load_to_mongodb`:
`insertRaises` is an exception thrown by `insert_many` before any
document is written (e.g. a lost connection), after `delete_many` has
already completed. -/
inductive LoadFault where
  | noFault
  | insertRaises
  deriving DecidableEq

/-- `load_to_mongodb`, at the level of the target collection's contents:
empty input short-circuits with a warning and `False`; otherwise prior
documents are counted and (when any exist) deleted, then the batch is
bulk-inserted and success is reported iff `result.inserted_ids` is
non-empty. -/
def load_to_mongodb (st : List MongoDoc) (transformed_data : List TransformedObj)
    (fault : LoadFault) : List LogEvent × List MongoDoc × Bool :=
  if transformed_data.isEmpty then
    ([.noDataWarning], st, false)
  else
    let existing_count := st.length
    let afterDelete := if existing_count > 0 then ([] : List MongoDoc) else st
    let deleteLogs := if existing_count > 0 then [LogEvent.clearingCount existing_count] else []
    match fault with
    | .insertRaises =>
      ([.loadingCount transformed_data.length] ++ deleteLogs ++ [.insertFailed],
       afterDelete, false)
    | .noFault =>
      let inserted := transformed_data.map MongoDoc.record
      let final := afterDelete ++ inserted
      if inserted.isEmpty then
        ([.loadingCount transformed_data.length] ++ deleteLogs ++ [.noDocsInserted],
         final, false)
      else
        ([.loadingCount transformed_data.length] ++ deleteLogs
           ++ [.insertedCount inserted.length, .finalCount final.length],
         final, true)

/-- The whole document store: databases and collections addressed by
name.  The script only ever writes through one `(database, collection)`
handle. -/
def MongoStore : Type := String → String → List MongoDoc

/-- `connect_to_mongodb`: open the client, probe with `server_info()`
(the `serverReachable` oracle covers unreachable host, bad URI and auth
failure), and on success return the handle to the fixed collection
`"mitre_attack_raw"` of the configured database; on failure
`sys.exit(1)`. -/
def connect_to_mongodb (mongo_uri mongo_db : String) (serverReachable : Bool) :
    List LogEvent × Except Nat (String × String) :=
  let _ := mongo_uri
  if serverReachable then
    ([.mongoConnectAttempt, .mongoConnected], .ok (mongo_db, "mitre_attack_raw"))
  else
    ([.mongoConnectAttempt, .mongoConnectFailed], .error 1)

/-- `load_to_mongodb` lifted to the whole store: only the collection the
handle addresses is rewritten. -/
def load_to_mongodb_store (store : MongoStore) (handle : String × String)
    (transformed_data : List TransformedObj) (fault : LoadFault) :
    List LogEvent × MongoStore × Bool :=
  let out := load_to_mongodb (store handle.1 handle.2) transformed_data fault
  (out.1, fun d c => if d = handle.1 ∧ c = handle.2 then out.2.1 else store d c, out.2.2)

/-- C2: For every prior collection state and non-empty batch, a
fault-free load succeeds and leaves the collection holding exactly the
new batch, so the final count is the batch size, independent of the prior
contents. -/
theorem load_is_full_replace (st : List MongoDoc) (data : List TransformedObj)
    (h : data ≠ []) :
    (load_to_mongodb st data .noFault).2.1 = data.map MongoDoc.record ∧
    (load_to_mongodb st data .noFault).2.2 = true ∧
    (load_to_mongodb st data .noFault).2.1.length = data.length := by
  have hne : data.isEmpty = false := by
    cases data with
    | nil => exact absurd rfl h
    | cons a l => rfl
  have hmapne : (data.map MongoDoc.record).isEmpty = false := by
    cases data with
    | nil => exact absurd rfl h
    | cons a l => rfl
  cases st with
  | nil =>
    simp [load_to_mongodb, hne, hmapne]
  | cons d ds =>
    simp [load_to_mongodb, hne, hmapne]

/-- Witness for C2: pre-populating with 10 unrelated documents and
loading 1 record leaves exactly that record, count 1. -/
theorem load_is_full_replace_witness :
    (fun st data =>
      (load_to_mongodb st data .noFault).2.1 = data.map MongoDoc.record ∧
      (load_to_mongodb st data .noFault).2.2 = true ∧
      (load_to_mongodb st data .noFault).2.1.length = data.length)
      (List.replicate 10 (MongoDoc.other "unrelated"))
      [transformObj 0 (StixObject.mk none (some "malware") none none none none none none none)] :=
  load_is_full_replace (List.replicate 10 (MongoDoc.other "unrelated"))
    [transformObj 0 (StixObject.mk none (some "malware") none none none none none none none)]
    (by simp)

/-- C8: If `insert_many` raises after the deletion completed, the load
reports failure and the collection is left empty: the prior contents are
gone and nothing was inserted. -/
theorem load_not_atomic (st : List MongoDoc) (data : List TransformedObj)
    (h : data ≠ []) :
    (load_to_mongodb st data .insertRaises).2.1 = [] ∧
    (load_to_mongodb st data .insertRaises).2.2 = false := by
  have hne : data.isEmpty = false := by
    cases data with
    | nil => exact absurd rfl h
    | cons a l => rfl
  cases st with
  | nil => simp [load_to_mongodb, hne]
  | cons d ds => simp [load_to_mongodb, hne]

/-- Witness for C8: 10 prior documents, a 1-record batch, a failing
insert: result is an empty collection and `False`. -/
theorem load_not_atomic_witness :
    (fun st data =>
      (load_to_mongodb st data .insertRaises).2.1 = [] ∧
      (load_to_mongodb st data .insertRaises).2.2 = false)
      (List.replicate 10 (MongoDoc.other "unrelated"))
      [transformObj 0 (StixObject.mk none (some "malware") none none none none none none none)] :=
  load_not_atomic (List.replicate 10 (MongoDoc.other "unrelated"))
    [transformObj 0 (StixObject.mk none (some "malware") none none none none none none none)]
    (by simp)

/-!  Configuration loading (`load_environment`). -/

/-- Python truthiness of `os.getenv(...)`: `None` (variable absent) and
the empty string are falsy. -/
def envTruthy : Option String → Bool
  | none => false
  | some s => !s.isEmpty

/-- `load_environment`: read `MONGO_URI` and `MONGO_DB`; if either is
missing or empty, log the fixed error line naming both variables and
`sys.exit(1)`; otherwise return the pair. -/
def load_environment (env : String → Option String) :
    List LogEvent × Except Nat (String × String) :=
  let mongo_uri := env "MONGO_URI"
  let mongo_db := env "MONGO_DB"
  if envTruthy mongo_uri && envTruthy mongo_db then
    ([], .ok (mongo_uri.getD "", mongo_db.getD ""))
  else
    ([.missingEnvVars ["MONGO_URI", "MONGO_DB"]], .error 1)

/-- Modelled from the spec: "report the specific missing names" — the
required variable names whose value is missing or empty, in declaration
order.  Used to compare the spec's wording with what the code logs. -/
def spec_missingNames (env : String → Option String) : List String :=
  (if envTruthy (env "MONGO_URI") then [] else ["MONGO_URI"]) ++
  (if envTruthy (env "MONGO_DB") then [] else ["MONGO_DB"])

/-- The variable names named by the missing-variable error lines of a
log trace. -/
def reportedMissingNames : List LogEvent → List String
  | [] => []
  | LogEvent.missingEnvVars ns :: rest => ns ++ reportedMissingNames rest
  | _ :: rest => reportedMissingNames rest

/-- An environment with a valid `MONGO_URI` but no `MONGO_DB`. -/
def envOnlyUri : String → Option String :=
  fun k => if k = "MONGO_URI" then some "mongodb://localhost:27017" else none

/-!  Feed connection (`connect_to_taxii_server`). -/

/-- The `for attempt in range(max_retries)` loop body:
`fail attempt = true` means the `try` body of that attempt raised
(connection error, or an empty `server.api_roots`).  On failure before
the last attempt the script sleeps 5 seconds and retries; on failure at
the last attempt it logs and `sys.exit(1)`; on success it returns. -/
def taxiiAttemptLoop (fail : Nat → Bool) (max_retries : Nat) :
    List Nat → List LogEvent × Except Nat Unit
  | [] => ([], .error 1)
  | attempt :: rest =>
    if fail attempt then
      if attempt < max_retries - 1 then
        let out := taxiiAttemptLoop fail max_retries rest
        (.taxiiAttempt attempt :: .taxiiRetrySleep 5 :: out.1, out.2)
      else
        ([.taxiiAttempt attempt, .taxiiFailedFinal], .error 1)
    else
      ([.taxiiAttempt attempt, .taxiiConnected], .ok ())

/-- `connect_to_taxii_server`: `max_retries = 3`, attempts numbered
`0, 1, 2`. -/
def connect_to_taxii_server (fail : Nat → Bool) : List LogEvent × Except Nat Unit :=
  taxiiAttemptLoop fail 3 (List.range 3)

/-- The number of connection attempts recorded in a trace. -/
def countAttempts : List LogEvent → Nat
  | [] => 0
  | LogEvent.taxiiAttempt _ :: rest => countAttempts rest + 1
  | _ :: rest => countAttempts rest

/-- The sleep durations recorded in a trace, in order. -/
def sleepDurations : List LogEvent → List Nat
  | [] => []
  | LogEvent.taxiiRetrySleep s :: rest => s :: sleepDurations rest
  | _ :: rest => sleepDurations rest

/-- C5: When every attempt fails, the feed connector performs exactly 3
attempts with exactly 2 five-second sleeps, each sleep strictly between
two attempts (so none after the final attempt), and exits with status 1. -/
theorem taxii_retries_exactly (fail : Nat → Bool)
    (h : ∀ n, n < 3 → fail n = true) :
    (connect_to_taxii_server fail).1 =
      [.taxiiAttempt 0, .taxiiRetrySleep 5, .taxiiAttempt 1, .taxiiRetrySleep 5,
       .taxiiAttempt 2, .taxiiFailedFinal] ∧
    countAttempts (connect_to_taxii_server fail).1 = 3 ∧
    sleepDurations (connect_to_taxii_server fail).1 = [5, 5] ∧
    (connect_to_taxii_server fail).2 = .error 1 := by
  have h0 := h 0 (by omega)
  have h1 := h 1 (by omega)
  have h2 := h 2 (by omega)
  have hrange : List.range 3 = [0, 1, 2] := by decide
  refine ⟨?_, ?_, ?_, ?_⟩ <;>
    simp [connect_to_taxii_server, hrange, taxiiAttemptLoop, h0, h1, h2,
      countAttempts, sleepDurations]

/-- Witness for C5 at the always-failing oracle. -/
theorem taxii_retries_exactly_witness :
    (connect_to_taxii_server (fun _ => true)).1 =
      [.taxiiAttempt 0, .taxiiRetrySleep 5, .taxiiAttempt 1, .taxiiRetrySleep 5,
       .taxiiAttempt 2, .taxiiFailedFinal] ∧
    countAttempts (connect_to_taxii_server (fun _ => true)).1 = 3 ∧
    sleepDurations (connect_to_taxii_server (fun _ => true)).1 = [5, 5] ∧
    (connect_to_taxii_server (fun _ => true)).2 = .error 1 :=
  taxii_retries_exactly (fun _ => true) (fun _ _ => rfl)

/-!  Collection location (`get_enterprise_collection`). -/

/-- A named sub-collection of the API root; only its `title` attribute is
used by the script. -/
structure TaxiiCollection where
  title : List Char
  deriving DecidableEq

/-- The fixed substring `"Enterprise ATT&CK"`. -/
def enterpriseSub : List Char := "Enterprise ATT&CK".toList

def prefixMatch : List Char → List Char → Bool
  | [], _ => true
  | _ :: _, [] => false
  | a :: as, b :: bs => (a == b) && prefixMatch as bs

/-- Substring containment, Python's `needle in haystack` on strings. -/
def containsSub (needle : List Char) : List Char → Bool
  | [] => needle.isEmpty
  | b :: bs => prefixMatch needle (b :: bs) || containsSub needle bs

/-- The test `"Enterprise ATT&CK" in coll.title`. -/
def matchesEnterprise (c : TaxiiCollection) : Bool :=
  containsSub enterpriseSub c.title

/-- The `for coll in collections` loop with `break`: first match wins. -/
def findEnterprise : List TaxiiCollection → Option TaxiiCollection
  | [] => none
  | c :: rest => if matchesEnterprise c then some c else findEnterprise rest

inductive LocResult where
  | found (c : TaxiiCollection)
  | exitCode (n : Nat)
  deriving DecidableEq

/-- `get_enterprise_collection`: an exception while accessing the
collections (`accessRaises`), or an empty enumeration, is logged and
exits 1; a first title containing the fixed substring is returned; if no
title matches, every available title is logged and the script exits 1. -/
def get_enterprise_collection (collections : List TaxiiCollection) (accessRaises : Bool) :
    List LogEvent × LocResult :=
  if accessRaises then
    ([.collectionsAccessError], .exitCode 1)
  else if collections.isEmpty then
    ([.collectionsAccessError], .exitCode 1)
  else
    match findEnterprise collections with
    | some c => ([.foundCollection c.title], .found c)
    | none =>
      (.enterpriseNotFound :: collections.map (fun c => .availableTitle c.title),
       .exitCode 1)

/-- The titles enumerated by `availableTitle` lines of a trace. -/
def loggedTitles : List LogEvent → List (List Char)
  | [] => []
  | LogEvent.availableTitle t :: rest => t :: loggedTitles rest
  | _ :: rest => loggedTitles rest

lemma loggedTitles_map (cs : List TaxiiCollection) :
    loggedTitles (cs.map fun c => LogEvent.availableTitle c.title) =
      cs.map TaxiiCollection.title := by
  induction cs with
  | nil => rfl
  | cons c rest ih => simp [loggedTitles, ih]

/-- Number of occurrences of a title in a list of titles. -/
def countOcc (t : List Char) : List (List Char) → Nat
  | [] => 0
  | s :: rest => (if s = t then 1 else 0) + countOcc t rest

lemma countOcc_eq_zero (t : List Char) (l : List (List Char)) (h : t ∉ l) :
    countOcc t l = 0 := by
  induction l with
  | nil => rfl
  | cons s rest ih =>
    have hst : ¬s = t := fun hs => h (hs ▸ List.mem_cons_self s rest)
    simp only [countOcc, if_neg hst, Nat.zero_add]
    exact ih (fun hm => h (List.mem_cons_of_mem s hm))

lemma countOcc_eq_one (t : List Char) (l : List (List Char))
    (hd : l.Nodup) (hm : t ∈ l) : countOcc t l = 1 := by
  induction l with
  | nil => exact absurd hm (List.not_mem_nil t)
  | cons s rest ih =>
    rcases List.mem_cons.mp hm with h | h
    · have hrest : t ∉ rest := by
        intro hc
        exact (List.nodup_cons.mp hd).1 (h ▸ hc)
      simp only [countOcc, if_pos h.symm, countOcc_eq_zero t rest hrest]
    · have hst : ¬s = t := by
        intro hs
        exact (List.nodup_cons.mp hd).1 (hs ▸ h)
      simp only [countOcc, if_neg hst, Nat.zero_add]
      exact ih (List.nodup_cons.mp hd).2 h

lemma findEnterprise_eq_none (cs : List TaxiiCollection)
    (h : ∀ c ∈ cs, matchesEnterprise c = false) : findEnterprise cs = none := by
  induction cs with
  | nil => rfl
  | cons c rest ih =>
    have hc := h c (List.mem_cons_self c rest)
    simp only [findEnterprise, hc, if_false, Bool.false_eq_true]
    exact ih (fun d hd => h d (List.mem_cons_of_mem c hd))

lemma findEnterprise_first (cs : List TaxiiCollection) :
    ∀ i (hi : i < cs.length), matchesEnterprise (cs.get ⟨i, hi⟩) = true →
      (∀ j (hj : j < i), matchesEnterprise (cs.get ⟨j, Nat.lt_trans hj hi⟩) = false) →
      findEnterprise cs = some (cs.get ⟨i, hi⟩) := by
  induction cs with
  | nil => intro i hi; exact absurd hi (Nat.not_lt_zero i)
  | cons c rest ih =>
    intro i hi hmatch hbefore
    cases i with
    | zero =>
      simp only [List.get] at hmatch
      simp [findEnterprise, hmatch]
    | succ i' =>
      have hc : matchesEnterprise c = false := hbefore 0 (Nat.succ_pos i')
      simp only [findEnterprise, hc, if_false, Bool.false_eq_true]
      have hi' : i' < rest.length := Nat.lt_of_succ_lt_succ hi
      have := ih i' hi' hmatch
        (fun j hj => hbefore (j + 1) (Nat.succ_lt_succ hj))
      exact this

/-- C6: With collection access succeeding and a non-empty enumeration:
if no title contains `"Enterprise ATT&CK"`, the locator exits 1 and its
log enumerates every available title exactly once (in enumeration order);
and whenever position `i` holds the first matching collection, that
collection is the one returned. -/
theorem locator_logs_titles_and_first_match (cs : List TaxiiCollection) :
    (cs ≠ [] → (∀ c ∈ cs, matchesEnterprise c = false) →
      (cs.map TaxiiCollection.title).Nodup →
      (get_enterprise_collection cs false).2 = .exitCode 1 ∧
      loggedTitles (get_enterprise_collection cs false).1 = cs.map TaxiiCollection.title ∧
      ∀ t ∈ cs.map TaxiiCollection.title,
        countOcc t (loggedTitles (get_enterprise_collection cs false).1) = 1) ∧
    (∀ i (hi : i < cs.length), matchesEnterprise (cs.get ⟨i, hi⟩) = true →
      (∀ j (hj : j < i), matchesEnterprise (cs.get ⟨j, Nat.lt_trans hj hi⟩) = false) →
      (get_enterprise_collection cs false).2 = .found (cs.get ⟨i, hi⟩)) := by
  constructor
  · intro hne hnomatch hnodup
    have hnonempty : cs.isEmpty = false := by
      cases cs with
      | nil => exact absurd rfl hne
      | cons a l => rfl
    have hfind := findEnterprise_eq_none cs hnomatch
    have hlog : loggedTitles (get_enterprise_collection cs false).1 =
        cs.map TaxiiCollection.title := by
      simp only [get_enterprise_collection, hnonempty, hfind, Bool.false_eq_true,
        if_false, loggedTitles]
      exact loggedTitles_map cs
    refine ⟨by simp [get_enterprise_collection, hnonempty, hfind], hlog, ?_⟩
    intro t ht
    rw [hlog]
    exact countOcc_eq_one t _ hnodup ht
  · intro i hi hmatch hbefore
    have hnonempty : cs.isEmpty = false := by
      cases cs with
      | nil => exact absurd hi (Nat.not_lt_zero i)
      | cons a l => rfl
    have hfind := findEnterprise_first cs i hi hmatch hbefore
    simp [get_enterprise_collection, hnonempty, hfind]

/-- Witness for C6: a two-title enumeration with no match exits 1 logging
both titles once; a list whose second title contains the substring (and
whose first does not) returns that second collection. -/
theorem locator_logs_titles_and_first_match_witness :
    ((get_enterprise_collection
        [⟨"ICS ATT&CK".toList⟩, ⟨"Mobile ATT&CK".toList⟩] false).2 = .exitCode 1 ∧
      loggedTitles (get_enterprise_collection
        [⟨"ICS ATT&CK".toList⟩, ⟨"Mobile ATT&CK".toList⟩] false).1 =
        [⟨"ICS ATT&CK".toList⟩, ⟨"Mobile ATT&CK".toList⟩].map TaxiiCollection.title ∧
      ∀ t ∈ [⟨"ICS ATT&CK".toList⟩, ⟨"Mobile ATT&CK".toList⟩].map TaxiiCollection.title,
        countOcc t (loggedTitles (get_enterprise_collection
          [⟨"ICS ATT&CK".toList⟩, ⟨"Mobile ATT&CK".toList⟩] false).1) = 1) ∧
    (get_enterprise_collection
      [⟨"Mobile ATT&CK".toList⟩, ⟨"Enterprise ATT&CK v12".toList⟩] false).2 =
      .found ⟨"Enterprise ATT&CK v12".toList⟩ := by
  constructor
  · exact (locator_logs_titles_and_first_match
      [⟨"ICS ATT&CK".toList⟩, ⟨"Mobile ATT&CK".toList⟩]).1
      (by decide) (by decide) (by decide)
  · exact (locator_logs_titles_and_first_match
      [⟨"Mobile ATT&CK".toList⟩, ⟨"Enterprise ATT&CK v12".toList⟩]).2
      1 (by decide) (by decide)
      (fun j hj => by
        have hj0 : j = 0 := by omega
        subst hj0
        rfl)

/-- Counterexample to C4 as stated: with `MONGO_URI` set and `MONGO_DB`
missing, the only missing name is `MONGO_DB`, yet the logged error line
names both variables — the loader reports a fixed pair of names, not the
specific missing ones. -/
theorem load_environment_fixed_names_counterexample :
    envTruthy (envOnlyUri "MONGO_URI") = true ∧
    envTruthy (envOnlyUri "MONGO_DB") = false ∧
    spec_missingNames envOnlyUri = ["MONGO_DB"] ∧
    reportedMissingNames (load_environment envOnlyUri).1 = ["MONGO_URI", "MONGO_DB"] ∧
    ¬ reportedMissingNames (load_environment envOnlyUri).1 = spec_missingNames envOnlyUri := by
  refine ⟨rfl, rfl, rfl, rfl, ?_⟩
  decide

/-!  The orchestrator (`main`) with its `try/except/finally` structure. -/

/-- A point at which a `KeyboardInterrupt` may be raised.  The helper
`except Exception` clauses do not catch it (it is a `BaseException`), so
it always propagates to `main`'s handler; interruption during a stage
means that stage did not complete. -/
inductive InterruptPoint where
  | duringEnv
  | duringMongo
  | duringTaxii
  | duringLocate
  | duringFetch
  | duringLoad
  | duringSummary
  deriving DecidableEq

/-- The external behaviour a run is exposed to. -/
structure World where
  env : String → Option String
  mongoReachable : Bool
  taxiiFail : Nat → Bool
  collectionsAccessRaises : Bool
  collections : List TaxiiCollection
  fetch : FetchOutcome
  clock : Nat → Nat
  loadFault : LoadFault
  store : MongoStore
  interrupt : Option InterruptPoint

/-- Outcome of a run: process exit status, full log trace, final store
contents, and whether the MongoDB client had been assigned in `main`'s
locals (the `'client' in locals()` test of the `finally` block; it
becomes true exactly when `connect_to_mongodb` returns). -/
structure RunResult where
  clientOpened : Bool
  exitCode : Nat
  events : List LogEvent
  store : MongoStore

/-- The `try` body of `main` (steps 1-7).  `sys.exit(1)` inside a helper
is a `SystemExit`, which `except Exception` does not catch, so it reaches
the `finally` block directly; a `KeyboardInterrupt` is caught by `main`'s
own handler which logs and exits 1. -/
def mainBody (w : World) : RunResult :=
  if w.interrupt = some .duringEnv then
    ⟨false, 1, [.interrupted], w.store⟩
  else
    let envOut := load_environment w.env
    match envOut.2 with
    | .error code => ⟨false, code, envOut.1, w.store⟩
    | .ok cfg =>
      if w.interrupt = some .duringMongo then
        ⟨false, 1, envOut.1 ++ [.interrupted], w.store⟩
      else
        let mOut := connect_to_mongodb cfg.1 cfg.2 w.mongoReachable
        match mOut.2 with
        | .error code => ⟨false, code, envOut.1 ++ mOut.1, w.store⟩
        | .ok handle =>
          if w.interrupt = some .duringTaxii then
            ⟨true, 1, envOut.1 ++ mOut.1 ++ [.interrupted], w.store⟩
          else
            let tOut := connect_to_taxii_server w.taxiiFail
            match tOut.2 with
            | .error code => ⟨true, code, envOut.1 ++ mOut.1 ++ tOut.1, w.store⟩
            | .ok _ =>
              if w.interrupt = some .duringLocate then
                ⟨true, 1, envOut.1 ++ mOut.1 ++ tOut.1 ++ [.interrupted], w.store⟩
              else
                let cOut := get_enterprise_collection w.collections w.collectionsAccessRaises
                match cOut.2 with
                | .exitCode code =>
                  ⟨true, code, envOut.1 ++ mOut.1 ++ tOut.1 ++ cOut.1, w.store⟩
                | .found _ =>
                  if w.interrupt = some .duringFetch then
                    ⟨true, 1, envOut.1 ++ mOut.1 ++ tOut.1 ++ cOut.1 ++ [.interrupted],
                     w.store⟩
                  else
                    let fOut := fetch_and_transform_data w.clock w.fetch
                    if w.interrupt = some .duringLoad then
                      ⟨true, 1,
                       envOut.1 ++ mOut.1 ++ tOut.1 ++ cOut.1 ++ fOut.1 ++ [.interrupted],
                       w.store⟩
                    else
                      let lOut := load_to_mongodb_store w.store handle fOut.2 w.loadFault
                      if lOut.2.2 then
                        if w.interrupt = some .duringSummary then
                          ⟨true, 1,
                           envOut.1 ++ mOut.1 ++ tOut.1 ++ cOut.1 ++ fOut.1 ++ lOut.1
                             ++ [.interrupted],
                           lOut.2.1⟩
                        else
                          ⟨true, 0,
                           envOut.1 ++ mOut.1 ++ tOut.1 ++ cOut.1 ++ fOut.1 ++ lOut.1
                             ++ [.summaryPrinted],
                           lOut.2.1⟩
                      else
                        ⟨true, 1,
                         envOut.1 ++ mOut.1 ++ tOut.1 ++ cOut.1 ++ fOut.1 ++ lOut.1
                           ++ [.pipelineFailedLoading],
                         lOut.2.1⟩

/-- `main` with its `finally` block: whatever way the `try` body ends,
the client is closed there iff it had been assigned. -/
def runMain (w : World) : RunResult :=
  let b := mainBody w
  { clientOpened := b.clientOpened
    exitCode := b.exitCode
    events := b.events ++ (if b.clientOpened then [LogEvent.closeClient] else [])
    store := b.store }

/-- Occurrences of the connection-close log line in a trace. -/
def countClose : List LogEvent → Nat
  | [] => 0
  | LogEvent.closeClient :: rest => countClose rest + 1
  | _ :: rest => countClose rest

lemma countClose_append (a b : List LogEvent) :
    countClose (a ++ b) = countClose a + countClose b := by
  induction a with
  | nil => simp [countClose]
  | cons e rest ih => cases e <;> simp [countClose, ih] <;> omega

lemma countClose_load_environment (env : String → Option String) :
    countClose (load_environment env).1 = 0 := by
  simp only [load_environment]
  split <;> rfl

lemma countClose_connect_mongo (uri db : String) (r : Bool) :
    countClose (connect_to_mongodb uri db r).1 = 0 := by
  simp only [connect_to_mongodb]
  split <;> rfl

lemma countClose_taxiiAttemptLoop (fail : Nat → Bool) (m : Nat) (l : List Nat) :
    countClose (taxiiAttemptLoop fail m l).1 = 0 := by
  induction l with
  | nil => rfl
  | cons a rest ih =>
    simp only [taxiiAttemptLoop]
    split
    · split
      · simp [countClose, ih]
      · rfl
    · rfl

lemma countClose_titleMap (cs : List TaxiiCollection) :
    countClose (cs.map fun c => LogEvent.availableTitle c.title) = 0 := by
  induction cs with
  | nil => rfl
  | cons c rest ih => simp [countClose, ih]

lemma countClose_locator (cs : List TaxiiCollection) (b : Bool) :
    countClose (get_enterprise_collection cs b).1 = 0 := by
  simp only [get_enterprise_collection]
  split
  · rfl
  · split
    · rfl
    · split
      · rfl
      · simp [countClose, countClose_titleMap]

lemma countClose_fetch (clock : Nat → Nat) (o : FetchOutcome) :
    countClose (fetch_and_transform_data clock o).1 = 0 := by
  cases o with
  | raises => rfl
  | response r => cases r <;> rfl

lemma countClose_load (st : List MongoDoc) (data : List TransformedObj) (f : LoadFault) :
    countClose (load_to_mongodb st data f).1 = 0 := by
  simp only [load_to_mongodb]
  split
  · rfl
  · cases f <;> repeat' split
    all_goals simp [countClose, countClose_append]

lemma countClose_load_store (store : MongoStore) (h : String × String)
    (data : List TransformedObj) (f : LoadFault) :
    countClose (load_to_mongodb_store store h data f).1 = 0 :=
  countClose_load (store h.1 h.2) data f

lemma countClose_mainBody (w : World) : countClose (mainBody w).events = 0 := by
  simp only [mainBody]
  repeat' split
  all_goals
    simp [countClose, countClose_append, countClose_load_environment,
      countClose_connect_mongo, connect_to_taxii_server, countClose_taxiiAttemptLoop,
      countClose_locator, countClose_fetch, countClose_load_store]

/-- C7: On every exit path of a run — success, any handled failure,
`SystemExit` from a helper, or interruption at any point — the store
client is closed by the final cleanup exactly once if it had been
opened, and never otherwise. -/
theorem store_client_closed_once (w : World) :
    countClose (runMain w).events = (if (runMain w).clientOpened then 1 else 0) := by
  have hev : (runMain w).events =
      (mainBody w).events ++ (if (mainBody w).clientOpened then [LogEvent.closeClient] else []) :=
    rfl
  have hop : (runMain w).clientOpened = (mainBody w).clientOpened := rfl
  rw [hev, hop, countClose_append, countClose_mainBody]
  by_cases h : (mainBody w).clientOpened <;> simp [h, countClose]

lemma load_store_empty_data (store : MongoStore) (h : String × String) (f : LoadFault) :
    (load_to_mongodb_store store h [] f).1 = [LogEvent.noDataWarning] ∧
    (load_to_mongodb_store store h [] f).2.1 = store ∧
    (load_to_mongodb_store store h [] f).2.2 = false := by
  refine ⟨rfl, ?_, rfl⟩
  funext d c
  show (if d = h.1 ∧ c = h.2 then store h.1 h.2 else store d c) = store d c
  split
  next hcond => rw [hcond.1, hcond.2]
  next => rfl

/-- C3: An empty response, a response without the `objects` field, or any
exception during fetch/transform yields an empty record list instead of
terminating; a run that reaches the load stage in that state logs the
no-data warning, leaves the store untouched, and exits with status 1. -/
theorem empty_fetch_soft_fails (w : World)
    (hout : w.fetch = .raises ∨ w.fetch = .response .emptyResponse ∨
      w.fetch = .response .missingObjectsField)
    (hnoint : w.interrupt = none)
    (huri : envTruthy (w.env "MONGO_URI") = true)
    (hdb : envTruthy (w.env "MONGO_DB") = true)
    (hmongo : w.mongoReachable = true)
    (htaxii : (connect_to_taxii_server w.taxiiFail).2 = .ok ())
    (hloc : ∃ c, (get_enterprise_collection w.collections w.collectionsAccessRaises).2 =
      .found c) :
    (fetch_and_transform_data w.clock w.fetch).2 = [] ∧
    LogEvent.noDataWarning ∈ (runMain w).events ∧
    (runMain w).store = w.store ∧
    (runMain w).exitCode = 1 := by
  obtain ⟨c, hc⟩ := hloc
  have hfetch : (fetch_and_transform_data w.clock w.fetch).2 = [] := by
    rcases hout with h | h | h <;> rw [h] <;> rfl
  have henv : load_environment w.env =
      ([], .ok ((w.env "MONGO_URI").getD "", (w.env "MONGO_DB").getD "")) := by
    simp [load_environment, huri, hdb]
  have hload := load_store_empty_data w.store
    ((w.env "MONGO_DB").getD "", "mitre_attack_raw") w.loadFault
  refine ⟨hfetch, ?_, ?_, ?_⟩ <;>
    simp [runMain, mainBody, hnoint, henv, hmongo, connect_to_mongodb, htaxii, hc,
      hfetch, hload.1, hload.2.1, hload.2.2]

/-- A world whose fetch produces a falsy response, with every earlier
stage healthy. -/
def worldEmptyFetch : World :=
  ⟨fun _ => some "x", true, fun _ => false, false, [⟨"Enterprise ATT&CK".toList⟩],
   .response .emptyResponse, fun k => k, .noFault, fun _ _ => [], none⟩

/-- Witness for C3 at `worldEmptyFetch`. -/
theorem empty_fetch_soft_fails_witness :
    (fetch_and_transform_data worldEmptyFetch.clock worldEmptyFetch.fetch).2 = [] ∧
    LogEvent.noDataWarning ∈ (runMain worldEmptyFetch).events ∧
    (runMain worldEmptyFetch).store = worldEmptyFetch.store ∧
    (runMain worldEmptyFetch).exitCode = 1 :=
  empty_fetch_soft_fails worldEmptyFetch (Or.inr (Or.inl rfl)) rfl rfl rfl rfl rfl
    ⟨⟨"Enterprise ATT&CK".toList⟩, by decide⟩

/-- C4 (amended): If either required variable is missing or empty, the
loader logs the fixed error line naming both required variables — a
superset of the missing names — and the run terminates with status 1
without a store-connection attempt having been made. -/
theorem config_missing_aborts (w : World)
    (h : envTruthy (w.env "MONGO_URI") = false ∨ envTruthy (w.env "MONGO_DB") = false)
    (hnoint : w.interrupt = none) :
    (runMain w).exitCode = 1 ∧
    LogEvent.missingEnvVars ["MONGO_URI", "MONGO_DB"] ∈ (runMain w).events ∧
    LogEvent.mongoConnectAttempt ∉ (runMain w).events ∧
    ∀ n ∈ spec_missingNames w.env, n = "MONGO_URI" ∨ n = "MONGO_DB" := by
  have henv : load_environment w.env =
      ([.missingEnvVars ["MONGO_URI", "MONGO_DB"]], .error 1) := by
    rcases h with h | h <;> simp [load_environment, h]
  refine ⟨?_, ?_, ?_, ?_⟩
  · simp [runMain, mainBody, hnoint, henv]
  · simp [runMain, mainBody, hnoint, henv]
  · simp [runMain, mainBody, hnoint, henv]
  · intro n hn
    unfold spec_missingNames at hn
    rcases List.mem_append.mp hn with h1 | h1 <;> split at h1 <;> simp_all

/-- A world with `MONGO_URI` set but `MONGO_DB` absent. -/
def worldMissingDb : World :=
  ⟨envOnlyUri, true, fun _ => false, false, [], .response .emptyResponse,
   fun k => k, .noFault, fun _ _ => [], none⟩

/-- Witness for C4 at `worldMissingDb`. -/
theorem config_missing_aborts_witness :
    (runMain worldMissingDb).exitCode = 1 ∧
    LogEvent.missingEnvVars ["MONGO_URI", "MONGO_DB"] ∈ (runMain worldMissingDb).events ∧
    LogEvent.mongoConnectAttempt ∉ (runMain worldMissingDb).events ∧
    ∀ n ∈ spec_missingNames worldMissingDb.env, n = "MONGO_URI" ∨ n = "MONGO_DB" :=
  config_missing_aborts worldMissingDb (Or.inr (by decide)) rfl

/-- C10: The store connector binds the handle to the fixed collection
`"mitre_attack_raw"` of the configured database, and the load stage
rewrites only the collection that handle addresses: every other
(database, collection) pair is unchanged. -/
theorem load_writes_only_target (uri db : String) (store : MongoStore)
    (data : List TransformedObj) (fault : LoadFault) (d c : String)
    (hne : ¬(d = db ∧ c = "mitre_attack_raw")) :
    (connect_to_mongodb uri db true).2 = .ok (db, "mitre_attack_raw") ∧
    (load_to_mongodb_store store (db, "mitre_attack_raw") data fault).2.1 d c =
      store d c := by
  refine ⟨rfl, ?_⟩
  show (if d = db ∧ c = "mitre_attack_raw" then _ else store d c) = store d c
  exact if_neg hne

/-- Witness for C10: a write to database `threatdb` leaves the collection
`other_collection` of the same database untouched. -/
theorem load_writes_only_target_witness :
    (connect_to_mongodb "mongodb://localhost" "threatdb" true).2 =
      .ok ("threatdb", "mitre_attack_raw") ∧
    (load_to_mongodb_store (fun _ _ => [MongoDoc.other "keep"])
        ("threatdb", "mitre_attack_raw")
        [transformObj 0 (StixObject.mk none (some "malware") none none none none none none none)]
        .noFault).2.1 "threatdb" "other_collection" =
      (fun _ _ => [MongoDoc.other "keep"]) "threatdb" "other_collection" :=
  load_writes_only_target "mongodb://localhost" "threatdb"
    (fun _ _ => [MongoDoc.other "keep"])
    [transformObj 0 (StixObject.mk none (some "malware") none none none none none none none)]
    .noFault "threatdb" "other_collection" (by decide)
